import Mathlib

/-!
# Wagering Ledger & Settlement Engine — verification development

Shallow embedding of the solaSphere wagering backend.  The repository holds
two implementations of the game settlement service:

* the transactional, fee-aware variant (the `GameService` class declared in
  `src/user/user.gateway.ts`, using mongo sessions and the `GAME_FEE`
  constant) — embedded below in namespace `Gateway`;
* the non-transactional variant (`src/game/game.serivce.ts`) — embedded in
  namespace `GameSvc`.

Money amounts are embedded as exact rationals (the source computes with
JavaScript numbers; the fee formulas `amount * (1 + GAME_FEE / 100)` are
fractional in general).  Balances are a total map from user ids to ℚ.
A mongo transaction is embedded as an all-or-nothing `Except`: an aborted
transaction returns an error and no state, exactly as `abortTransaction`
leaves the store untouched.
-/

namespace SolaSphere

/-- Game lifecycle status.  The transactional variant only ever writes
`active`, `ended`, `cancelled`; the non-transactional `join` additionally
writes the transient `joined` status, so the embedding carries it. -/
inductive GStatus where
| active
| joined
| ended
| cancelled
deriving DecidableEq

/-- The `Game` document (`game.schema.ts` is not under `src/`; fields are
taken from their uses in the two services: `amount`, `fee`, `creator`,
`creatorMove`, `opponent`, `opponentMove`, `status`, `winner`, `endedAt`).
Users are referenced by id (`Nat`).  `opponent`, `opponentMove`, `winner`
and `endedAt` are absent until set, hence `Option`. -/
structure Game where
  amount : ℚ
  fee : ℚ
  creator : Nat
  creatorMove : Nat
  opponent : Option Nat
  opponentMove : Option Nat
  status : GStatus
  winner : Option Nat
  endedAt : Option Nat
deriving DecidableEq

/-- Error taxonomy of the engine (spec §7).  `settlementFailure` stands for
the generic `Failed to …` error thrown when a mongo transaction aborts. -/
inductive Err where
| insufficientBalance
| activeGameLimitExceeded
| gameNotFound
| gameNotActive
| selfJoinForbidden
| notOwner
| insufficientFunds
| settlementFailure
deriving DecidableEq

/-- Fire-and-forget notification events dispatched after commit:
`balanceChange` (from `UserGateway.balanceChangeNotify`: user id, new
balance, `fromDeposit` flag), `newGame` / `gameUpdate` (from
`GameGateway`), the latter carrying the id of the updated game.
`gameUpdateDoc` carries the full document, as the non-transactional
`pickWinner` notifies with the game object itself. -/
inductive Event where
| balanceChange (uid : Nat) (newBalance : ℚ) (fromDeposit : Bool)
| newGame (gid : Nat)
| gameUpdate (gid : Nat)
| gameUpdateDoc (g : Game)
deriving DecidableEq

/-- Discriminator for balance-changed events. -/
def Event.isBalanceChange : Event → Bool
| .balanceChange _ _ _ => true
| _ => false

/-- Modelled from the spec: `UserService.changeBalance` (the Balance
Ledger's `applyDelta`, §4.1) is not under `src/`.  Per the spec it fails
with `InsufficientFunds` when the resulting balance would be negative (no
partial application), otherwise persists the new balance and, when
`notify` is true, emits a balance-changed event carrying the new balance
and the `isDeposit` flag. -/
def changeBalance (bal : Nat → ℚ) (uid : Nat) (delta : ℚ) (notify : Bool)
    (isDeposit : Bool) : Except Err ((Nat → ℚ) × List Event) :=
  let nb := bal uid + delta
  if nb < 0 then .error .insufficientFunds
  else .ok (fun u => if u = uid then nb else bal u,
            if notify then [.balanceChange uid nb isDeposit] else [])

/-- Engine state: the balance ledger and the game store.  Games are
addressed by their position in the list (the embedding of mongo ids). -/
structure St where
  bal : Nat → ℚ
  games : List Game

/-! ## Transactional variant (`GameService` in `src/user/user.gateway.ts`) -/

namespace Gateway

/-- `const GAME_FEE = 4` in `src/user/user.gateway.ts`. -/
def GAME_FEE : ℚ := 4

/-- `userActiveCount`: `gameModel.count({ creator: userId, status: 'active' })`. -/
def userActiveCount (st : St) (uid : Nat) : Nat :=
  (st.games.filter (fun g => decide (g.creator = uid ∧ g.status = GStatus.active))).length

/-- `pickWinner` of the transactional variant.  On a tie both parties are
credited `amount * (1 + GAME_FEE / 100)` with notification disabled; on a
decisive outcome the moves are sorted (`[cm, om].sort()`; for two
single-digit numbers JavaScript's default sort is ascending), the
wraparound pair `[0, 2]` designates `0` as winning choice, otherwise the
larger move wins, and the winner is credited `amount * 2` with
notification disabled.  `join` sets `opponent`/`opponentMove` before
invoking `pickWinner`; the `getD` defaults only stand in for the
unreachable unset case. -/
def pickWinner (bal : Nat → ℚ) (g : Game) :
    Except Err ((Nat → ℚ) × Game × List Event) :=
  let creator := g.creator
  let opponent := g.opponent.getD g.creator
  let om := g.opponentMove.getD g.creatorMove
  if g.creatorMove = om then
    match changeBalance bal creator (g.amount * (1 + GAME_FEE / 100)) false false with
    | .error e => .error e
    | .ok r1 =>
      match changeBalance r1.1 opponent (g.amount * (1 + GAME_FEE / 100)) false false with
      | .error e => .error e
      | .ok r2 => .ok (r2.1, g, r1.2 ++ r2.2)
  else
    let m0 := min g.creatorMove om
    let m1 := max g.creatorMove om
    let winningChoice := if m0 = 0 ∧ m1 = 2 then 0 else m1
    let winner := if g.creatorMove = winningChoice then creator else opponent
    match changeBalance bal winner (g.amount * 2) false false with
    | .error e => .error e
    | .ok r1 => .ok (r1.1, { g with winner := some winner }, r1.2)

/-- `create` of the transactional variant: reject when
`balance < amount * (1 + GAME_FEE / 100)`, then when the caller already has
5 or more active games; otherwise, inside one transaction, debit the
caller `payAmount` and persist the new active game, then notify. -/
def create (st : St) (uid : Nat) (amount : ℚ) (creatorMove : Nat) :
    Except Err (St × List Event) :=
  let payAmount := amount * (1 + GAME_FEE / 100)
  if st.bal uid < payAmount then .error .insufficientBalance
  else if 5 ≤ userActiveCount st uid then .error .activeGameLimitExceeded
  else
    match changeBalance st.bal uid (-payAmount) true false with
    | .error _ => .error .settlementFailure
    | .ok r1 =>
      let newGame : Game :=
        { amount := amount, fee := GAME_FEE, creator := uid,
          creatorMove := creatorMove, opponent := none, opponentMove := none,
          status := GStatus.active, winner := none, endedAt := none }
      .ok ({ bal := r1.1, games := st.games ++ [newGame] },
           r1.2 ++ [.newGame st.games.length])

/-- `join` of the transactional variant: validate (game exists, is active,
joiner can pay `amount * (1 + GAME_FEE / 100)`, joiner is not the
creator), then inside one transaction set
`opponent`/`opponentMove`/`endedAt`/`status := ended`, debit the joiner,
run `pickWinner`, and after commit notify the game update.  An abort
leaves the store untouched. -/
def join (st : St) (gid : Nat) (uid : Nat) (move : Nat) (now : Nat) :
    Except Err (St × List Event) :=
  match st.games[gid]? with
  | none => .error .gameNotFound
  | some game =>
    if game.status ≠ GStatus.active then .error .gameNotActive
    else
      let payAmount := game.amount * (1 + GAME_FEE / 100)
      if st.bal uid < payAmount then .error .insufficientBalance
      else if uid = game.creator then .error .selfJoinForbidden
      else
        let g1 : Game :=
          { game with opponent := some uid, opponentMove := some move,
                      endedAt := some now, status := GStatus.ended }
        match changeBalance st.bal uid (-payAmount) true false with
        | .error _ => .error .settlementFailure
        | .ok r1 =>
          match pickWinner r1.1 g1 with
          | .error _ => .error .settlementFailure
          | .ok r2 =>
            .ok ({ bal := r2.1, games := st.games.set gid r2.2.1 },
                 r1.2 ++ r2.2.2 ++ [.gameUpdate gid])

/-- `cancel` of the transactional variant: validate (game exists, caller is
the creator, game is active), then inside one transaction set status
`cancelled` and credit the creator `amount * (1 + GAME_FEE / 100)` (the
original debit), and notify after commit. -/
def cancel (st : St) (gid : Nat) (uid : Nat) : Except Err (St × List Event) :=
  match st.games[gid]? with
  | none => .error .gameNotFound
  | some game =>
    if uid ≠ game.creator then .error .notOwner
    else if game.status ≠ GStatus.active then .error .gameNotActive
    else
      let g1 : Game := { game with status := GStatus.cancelled }
      match changeBalance st.bal uid (game.amount * (1 + GAME_FEE / 100)) true false with
      | .error _ => .error .settlementFailure
      | .ok r1 =>
        .ok ({ bal := r1.1, games := st.games.set gid g1 },
             r1.2 ++ [.gameUpdate gid])

end Gateway

/-! ## Non-transactional variant (`src/game/game.serivce.ts`) -/

namespace GameSvc

/-- In JavaScript, `===` on two arrays is reference equality; the source's
`moves === [0, 2] || moves === [2, 0]` compares the `moves` array against
freshly allocated literals, which is `false` for every pair of moves. -/
def jsStrictEqArray (xs ys : List Nat) : Bool :=
  match xs, ys with
  | _, _ => false

/-- JavaScript's `Math.round`: round half away from zero towards +∞,
i.e. `⌊x + 1/2⌋`. -/
def jsRound (q : ℚ) : ℤ := ⌊q + 1 / 2⌋

/-- `pickWinner` of the non-transactional variant: set `endedAt` and status
`ended`; on a tie refund each party `amount` (default notification); on a
decisive outcome the winning choice is `0` when the wraparound test
`moves === [0,2] || moves === [2,0]` succeeds (it never does — reference
equality) and otherwise `Math.max(...moves)`, and the winner is credited
`Math.round(amount * 2 * ((100 - fee) / 100))` with notification disabled;
finally the updated game is notified. -/
def pickWinner (bal : Nat → ℚ) (g : Game) (now : Nat) :
    Except Err ((Nat → ℚ) × Game × List Event) :=
  let g0 : Game := { g with endedAt := some now, status := GStatus.ended }
  let creator := g0.creator
  let opponent := g0.opponent.getD g0.creator
  let om := g0.opponentMove.getD g0.creatorMove
  if g0.creatorMove = om then
    match changeBalance bal creator g0.amount true false with
    | .error e => .error e
    | .ok r1 =>
      match changeBalance r1.1 opponent g0.amount true false with
      | .error e => .error e
      | .ok r2 => .ok (r2.1, g0, r1.2 ++ r2.2 ++ [.gameUpdateDoc g0])
  else
    let moves := [g0.creatorMove, om]
    let winningChoice :=
      if jsStrictEqArray moves [0, 2] || jsStrictEqArray moves [2, 0] then 0
      else max g0.creatorMove om
    let winner := if g0.creatorMove = winningChoice then creator else opponent
    let g1 : Game := { g0 with winner := some winner }
    match changeBalance bal winner
        (((jsRound (g0.amount * 2 * ((100 - g0.fee) / 100)) : ℤ) : ℚ)) false false with
    | .error e => .error e
    | .ok r1 => .ok (r1.1, g1, r1.2 ++ [.gameUpdateDoc g1])

end GameSvc

/-! ## Deposit reconciler (`src/tasks/tasks.service.ts`) -/

/-- The `Transaction` document (`src/transaction/transaction.schema.ts`):
owner reference, chain signature, kind ∈ {deposit, withdraw}, status ∈
{pending, confirmed}. -/
structure Txn where
  owner : Nat
  signature : String
  txType : String
  status : String
deriving DecidableEq

/-- Modelled from the spec: `TransactionService.getUnconfirmed` is not
under `src/`; per spec §4.3 the reconciler "fetches all Transaction
records with status `pending`". -/
def getUnconfirmed (txs : List Txn) : List Txn :=
  txs.filter (fun t => t.status = "pending")

/-- `TasksService.checkDeposits`: fetch the unconfirmed transactions, log
their count, and when there is at least one, invoke
`transactionService.confirmMany` once with the whole batch.  The result is
the logged count together with the list of `confirmMany` invocations
(each element one call, carrying its batch); `confirmMany` itself is an
external collaborator not under `src/`. -/
def checkDeposits (txs : List Txn) : Nat × List (List Txn) :=
  let unConfirmedTransactions := getUnconfirmed txs
  (unConfirmedTransactions.length,
   if unConfirmedTransactions.length > 0 then [unConfirmedTransactions] else [])

/-! ## Result projections (shared helpers for concrete evaluations) -/

/-- Winner recorded by a settlement result (`none` on error or tie). -/
def resultWinner (r : Except Err ((Nat → ℚ) × Game × List Event)) : Option Nat :=
  match r with
  | .ok p => p.2.1.winner
  | .error _ => none

/-- Balance of user `u` in a settlement result (`0` on error). -/
def resultBal (r : Except Err ((Nat → ℚ) × Game × List Event)) (u : Nat) : ℚ :=
  match r with
  | .ok p => p.1 u
  | .error _ => 0

/-- Example game for the wraparound pair: creator (user 0) played move 0,
opponent (user 1) played move 2, stake 100, fee rate 4. -/
def exGameWrap : Game :=
  { amount := 100, fee := 4, creator := 0, creatorMove := 0,
    opponent := some 1, opponentMove := some 2,
    status := GStatus.ended, winner := none, endedAt := none }

/-- Example tied game: both parties played move 0, stake 100, fee rate 4. -/
def exGameTie : Game :=
  { amount := 100, fee := 4, creator := 0, creatorMove := 0,
    opponent := some 1, opponentMove := some 0,
    status := GStatus.ended, winner := none, endedAt := none }

/-- Example active game: creator is user 0, move 0, stake 100, fee rate 4. -/
def exActiveGame : Game :=
  { amount := 100, fee := 4, creator := 0, creatorMove := 0,
    opponent := none, opponentMove := none, status := GStatus.active,
    winner := none, endedAt := none }

/-- Example state: users 0 and 1 hold 104 each, one active game by user 0. -/
def exSt : St :=
  { bal := fun u => if u = 0 then 104 else if u = 1 then 104 else 0,
    games := [exActiveGame] }

/-- The example game, already ended. -/
def exEndedGame : Game := { exActiveGame with status := GStatus.ended }

/-- Example state holding only an ended game. -/
def exStEnded : St := { bal := fun _ => 0, games := [exEndedGame] }

/-- All stored games carry one of the three lifecycle statuses of the
spec. -/
def statusInv (st : St) : Prop :=
  ∀ g, g ∈ st.games →
    (g.status = GStatus.active ∨ g.status = GStatus.ended ∨
     g.status = GStatus.cancelled)

/-! ## Helper lemmas -/

theorem changeBalance_ok_of_nonneg (bal : Nat → ℚ) (uid : Nat) (delta : ℚ)
    (notify isDeposit : Bool) (h : 0 ≤ bal uid + delta) :
    changeBalance bal uid delta notify isDeposit =
      .ok (fun u => if u = uid then bal uid + delta else bal u,
           if notify then [.balanceChange uid (bal uid + delta) isDeposit] else []) := by
  simp only [changeBalance]
  rw [if_neg (not_lt.mpr h)]

/-- A balance change with notification disabled emits no event. -/
theorem changeBalance_silent (bal : Nat → ℚ) (uid : Nat) (delta : ℚ)
    (isDeposit : Bool) (r : (Nat → ℚ) × List Event)
    (h : changeBalance bal uid delta false isDeposit = .ok r) : r.2 = [] := by
  by_cases hlt : bal uid + delta < 0
  · simp only [changeBalance, if_pos hlt] at h
    exact absurd h (by simp)
  · simp only [changeBalance, if_neg hlt] at h
    rw [Except.ok.injEq] at h
    rw [← h]
    simp

/-- The cost of entering a game in the transactional variant. -/
theorem payAmount_nonneg (a : ℚ) (ha : 0 ≤ a) :
    0 ≤ a * (1 + Gateway.GAME_FEE / 100) := by
  have : (0:ℚ) ≤ 1 + Gateway.GAME_FEE / 100 := by norm_num [Gateway.GAME_FEE]
  exact mul_nonneg ha this

/-- What a successful balance change did: new balance map and emitted
events. -/
theorem changeBalance_ok_elim (bal : Nat → ℚ) (uid : Nat) (delta : ℚ)
    (notify isDeposit : Bool) (r : (Nat → ℚ) × List Event)
    (h : changeBalance bal uid delta notify isDeposit = .ok r) :
    r.1 = (fun u => if u = uid then bal uid + delta else bal u) ∧
    r.2 = (if notify then [.balanceChange uid (bal uid + delta) isDeposit]
           else []) := by
  by_cases hlt : bal uid + delta < 0
  · simp [changeBalance, hlt] at h
  · simp only [changeBalance, if_neg hlt] at h
    rw [Except.ok.injEq] at h
    constructor <;> rw [← h]

/-- Tie path of the transactional `pickWinner`: both parties are credited
`amount * (1 + GAME_FEE / 100)`, no event is emitted, the game document is
returned unchanged. -/
theorem gateway_pickWinner_tie (bal : Nat → ℚ) (g : Game) (om : Nat)
    (hom : g.opponentMove = some om) (heq : g.creatorMove = om)
    (ha : 0 ≤ g.amount) (hc : 0 ≤ bal g.creator)
    (ho : 0 ≤ bal (g.opponent.getD g.creator)) :
    ∃ b2 : Nat → ℚ, Gateway.pickWinner bal g = .ok (b2, g, []) ∧
      (g.opponent.getD g.creator ≠ g.creator →
        b2 g.creator = bal g.creator + g.amount * (1 + Gateway.GAME_FEE / 100) ∧
        b2 (g.opponent.getD g.creator) =
          bal (g.opponent.getD g.creator) + g.amount * (1 + Gateway.GAME_FEE / 100)) ∧
      (∀ u, u ≠ g.creator → u ≠ g.opponent.getD g.creator → b2 u = bal u) := by
  have hpay := payAmount_nonneg g.amount ha
  have h1 := changeBalance_ok_of_nonneg bal g.creator
    (g.amount * (1 + Gateway.GAME_FEE / 100)) false false (by linarith)
  set b1 : Nat → ℚ :=
    fun u => if u = g.creator
             then bal g.creator + g.amount * (1 + Gateway.GAME_FEE / 100)
             else bal u with hb1
  have hb1o : 0 ≤ b1 (g.opponent.getD g.creator) := by
    by_cases hoc : g.opponent.getD g.creator = g.creator <;>
      simp [hb1, hoc] <;> linarith
  have h2 := changeBalance_ok_of_nonneg b1 (g.opponent.getD g.creator)
    (g.amount * (1 + Gateway.GAME_FEE / 100)) false false (by linarith)
  refine ⟨fun u => if u = g.opponent.getD g.creator
            then b1 (g.opponent.getD g.creator) +
              g.amount * (1 + Gateway.GAME_FEE / 100)
            else b1 u, ?_, ?_, ?_⟩
  · unfold Gateway.pickWinner
    rw [hom]
    simp only [Option.getD_some, if_pos heq, h1, h2]
    simp
  · intro hoc
    constructor
    · simp [hb1, hoc, Ne.symm hoc]
    · simp [hb1, hoc, Ne.symm hoc]
  · intro u hu1 hu2
    simp [hb1, hu1, hu2]

/-- Decisive path of the transactional `pickWinner`: the winner computed
from the sorted moves is recorded on the game and credited `amount * 2`,
no event is emitted, every other balance is untouched. -/
theorem gateway_pickWinner_decisive (bal : Nat → ℚ) (g : Game) (om : Nat)
    (hom : g.opponentMove = some om) (hne : g.creatorMove ≠ om)
    (ha : 0 ≤ g.amount) (hc : 0 ≤ bal g.creator)
    (ho : 0 ≤ bal (g.opponent.getD g.creator)) :
    ∃ w : Nat, ∃ b1 : Nat → ℚ,
      Gateway.pickWinner bal g = .ok (b1, { g with winner := some w }, []) ∧
      w = (if g.creatorMove =
             (if min g.creatorMove om = 0 ∧ max g.creatorMove om = 2 then 0
              else max g.creatorMove om)
           then g.creator else g.opponent.getD g.creator) ∧
      b1 w = bal w + g.amount * 2 ∧
      (∀ u, u ≠ w → b1 u = bal u) := by
  set w : Nat :=
    (if g.creatorMove =
       (if min g.creatorMove om = 0 ∧ max g.creatorMove om = 2 then 0
        else max g.creatorMove om)
     then g.creator else g.opponent.getD g.creator) with hw
  have hbw : 0 ≤ bal w := by
    rw [hw]
    split_ifs <;> first | exact hc | exact ho
  have h1 := changeBalance_ok_of_nonneg bal w (g.amount * 2) false false
    (by nlinarith)
  refine ⟨w, fun u => if u = w then bal w + g.amount * 2 else bal u, ?_, rfl, ?_, ?_⟩
  · unfold Gateway.pickWinner
    rw [hom]
    simp only [Option.getD_some, if_neg hne]
    rw [← hw, h1]
    simp
  · simp
  · intro u hu
    simp [hu]

/-- A successful transactional `pickWinner` emits no event (all its
credits run with notification disabled). -/
theorem gateway_pickWinner_ok_events (bal : Nat → ℚ) (g : Game)
    (r : (Nat → ℚ) × Game × List Event)
    (h : Gateway.pickWinner bal g = .ok r) : r.2.2 = [] := by
  simp only [Gateway.pickWinner] at h
  split at h
  · split at h
    · exact Except.noConfusion h
    · rename_i r1 heq1
      split at h
      · exact Except.noConfusion h
      · rename_i r2 heq2
        injection h with h1
        rw [← h1]
        simp [changeBalance_silent _ _ _ _ _ heq1,
              changeBalance_silent _ _ _ _ _ heq2]
  · split at h
    · exact Except.noConfusion h
    · rename_i r1 heq1
      injection h with h1
      rw [← h1]
      simp [changeBalance_silent _ _ _ _ _ heq1]

/-- Decomposition of a successful transactional `join`: which checks
passed, which debit and settlement ran, and the shape of the resulting
state and event trace. -/
theorem gateway_join_ok_elim (st : St) (gid uid move now : Nat) (st2 : St)
    (evs : List Event)
    (h : Gateway.join st gid uid move now = .ok (st2, evs)) :
    ∃ game, st.games[gid]? = some game ∧ game.status = GStatus.active ∧
      ¬ st.bal uid < game.amount * (1 + Gateway.GAME_FEE / 100) ∧
      uid ≠ game.creator ∧
      ∃ r1 r2,
        changeBalance st.bal uid (-(game.amount * (1 + Gateway.GAME_FEE / 100)))
          true false = .ok r1 ∧
        Gateway.pickWinner r1.1
          { game with opponent := some uid, opponentMove := some move,
                      endedAt := some now, status := GStatus.ended } = .ok r2 ∧
        st2 = { bal := r2.1, games := st.games.set gid r2.2.1 } ∧
        evs = r1.2 ++ r2.2.2 ++ [.gameUpdate gid] := by
  simp only [Gateway.join] at h
  split at h
  · exact Except.noConfusion h
  · rename_i game heq
    refine ⟨game, heq, ?_⟩
    split at h
    · exact Except.noConfusion h
    · rename_i hact
      rw [not_not] at hact
      refine ⟨hact, ?_⟩
      split at h
      · exact Except.noConfusion h
      · rename_i hbal
        refine ⟨hbal, ?_⟩
        split at h
        · exact Except.noConfusion h
        · rename_i hself
          refine ⟨hself, ?_⟩
          split at h
          · exact Except.noConfusion h
          · rename_i r1 heq1
            split at h
            · exact Except.noConfusion h
            · rename_i r2 heq2
              injection h with h1
              injection h1 with h2 h3
              exact ⟨r1, r2, heq1, heq2, h2.symm, h3.symm⟩

/-- Decomposition of a successful transactional `create`. -/
theorem gateway_create_ok_elim (st : St) (uid : Nat) (amount : ℚ)
    (creatorMove : Nat) (st2 : St) (evs : List Event)
    (h : Gateway.create st uid amount creatorMove = .ok (st2, evs)) :
    ¬ st.bal uid < amount * (1 + Gateway.GAME_FEE / 100) ∧
    Gateway.userActiveCount st uid < 5 ∧
    ∃ r1, changeBalance st.bal uid (-(amount * (1 + Gateway.GAME_FEE / 100)))
        true false = .ok r1 ∧
      st2 = { bal := r1.1,
              games := st.games ++
                [{ amount := amount, fee := Gateway.GAME_FEE, creator := uid,
                   creatorMove := creatorMove, opponent := none,
                   opponentMove := none, status := GStatus.active,
                   winner := none, endedAt := none }] } ∧
      evs = r1.2 ++ [.newGame st.games.length] := by
  simp only [Gateway.create] at h
  split at h
  · exact Except.noConfusion h
  · rename_i hbal
    refine ⟨hbal, ?_⟩
    split at h
    · exact Except.noConfusion h
    · rename_i hcount
      refine ⟨by omega, ?_⟩
      split at h
      · exact Except.noConfusion h
      · rename_i r1 heq1
        injection h with h1
        injection h1 with h2 h3
        exact ⟨r1, heq1, h2.symm, h3.symm⟩

/-- Decomposition of a successful transactional `cancel`. -/
theorem gateway_cancel_ok_elim (st : St) (gid uid : Nat) (st2 : St)
    (evs : List Event)
    (h : Gateway.cancel st gid uid = .ok (st2, evs)) :
    ∃ game, st.games[gid]? = some game ∧ uid = game.creator ∧
      game.status = GStatus.active ∧
      ∃ r1, changeBalance st.bal uid (game.amount * (1 + Gateway.GAME_FEE / 100))
          true false = .ok r1 ∧
        st2 = { bal := r1.1,
                games := st.games.set gid { game with status := GStatus.cancelled } } ∧
        evs = r1.2 ++ [.gameUpdate gid] := by
  simp only [Gateway.cancel] at h
  split at h
  · exact Except.noConfusion h
  · rename_i game heq
    refine ⟨game, heq, ?_⟩
    split at h
    · exact Except.noConfusion h
    · rename_i hown
      rw [not_not] at hown
      refine ⟨hown, ?_⟩
      split at h
      · exact Except.noConfusion h
      · rename_i hact
        rw [not_not] at hact
        refine ⟨hact, ?_⟩
        split at h
        · exact Except.noConfusion h
        · rename_i r1 heq1
          injection h with h1
          injection h1 with h2 h3
          exact ⟨r1, heq1, h2.symm, h3.symm⟩

/-- A successful transactional `pickWinner` never changes the game's
status field. -/
theorem gateway_pickWinner_ok_status (bal : Nat → ℚ) (g : Game)
    (r : (Nat → ℚ) × Game × List Event)
    (h : Gateway.pickWinner bal g = .ok r) : r.2.1.status = g.status := by
  simp only [Gateway.pickWinner] at h
  split at h
  · split at h
    · exact Except.noConfusion h
    · rename_i r1 heq1
      split at h
      · exact Except.noConfusion h
      · rename_i r2 heq2
        injection h with h1
        rw [← h1]
  · split at h
    · exact Except.noConfusion h
    · rename_i r1 heq1
      injection h with h1
      rw [← h1]

/-- Constructive success of the transactional `create`: with sufficient
balance and fewer than 5 active games, `create` debits exactly
amount × (1 + GAME_FEE / 100) and appends the new active game. -/
theorem gateway_create_ok_intro (st : St) (uid : Nat) (amount : ℚ)
    (move : Nat)
    (hb : amount * (1 + Gateway.GAME_FEE / 100) ≤ st.bal uid)
    (hcount : Gateway.userActiveCount st uid < 5) :
    Gateway.create st uid amount move = .ok
      ({ bal := fun u => if u = uid
           then st.bal uid + -(amount * (1 + Gateway.GAME_FEE / 100))
           else st.bal u,
         games := st.games ++
           [{ amount := amount, fee := Gateway.GAME_FEE, creator := uid,
              creatorMove := move, opponent := none, opponentMove := none,
              status := GStatus.active, winner := none, endedAt := none }] },
       [Event.balanceChange uid
          (st.bal uid + -(amount * (1 + Gateway.GAME_FEE / 100))) false,
        Event.newGame st.games.length]) := by
  have hcb := changeBalance_ok_of_nonneg st.bal uid
    (-(amount * (1 + Gateway.GAME_FEE / 100))) true false (by linarith)
  simp only [Gateway.create, if_neg (not_lt.mpr hb),
    if_neg (not_le.mpr hcount)]
  rw [hcb]
  simp

/-- Constructive success of the transactional `join`: when the game
exists, is active, the joiner can pay and is not the creator (and balances
are well-formed), `join` succeeds; on a tie the joiner ends where they
started and the creator is credited amount × (1 + GAME_FEE / 100). -/
theorem gateway_join_ok_intro (st : St) (gid uid move now : Nat) (game : Game)
    (hg : st.games[gid]? = some game) (hact : game.status = GStatus.active)
    (hbal : game.amount * (1 + Gateway.GAME_FEE / 100) ≤ st.bal uid)
    (hself : uid ≠ game.creator) (ha : 0 ≤ game.amount)
    (hcbal : 0 ≤ st.bal game.creator) :
    ∃ st2 evs, Gateway.join st gid uid move now = .ok (st2, evs) ∧
      (game.creatorMove = move →
        st2.bal uid = st.bal uid ∧
        st2.bal game.creator =
          st.bal game.creator + game.amount * (1 + Gateway.GAME_FEE / 100) ∧
        (∀ u, u ≠ uid → u ≠ game.creator → st2.bal u = st.bal u)) := by
  have hpay := payAmount_nonneg game.amount ha
  have hcb := changeBalance_ok_of_nonneg st.bal uid
    (-(game.amount * (1 + Gateway.GAME_FEE / 100))) true false (by linarith)
  set b1 : Nat → ℚ :=
    fun u => if u = uid
             then st.bal uid + -(game.amount * (1 + Gateway.GAME_FEE / 100))
             else st.bal u with hb1
  set g1 : Game :=
    { game with opponent := some uid, opponentMove := some move,
                endedAt := some now, status := GStatus.ended } with hg1
  have hc : 0 ≤ b1 g1.creator := by
    simp only [hb1, hg1]
    rw [if_neg (Ne.symm hself)]
    exact hcbal
  have ho : 0 ≤ b1 (g1.opponent.getD g1.creator) := by
    simp [hb1, hg1]
    linarith
  by_cases heq : g1.creatorMove = move
  · obtain ⟨b2, hpw, hcred, hframe⟩ :=
      gateway_pickWinner_tie b1 g1 move rfl heq ha hc ho
    have hjoin : Gateway.join st gid uid move now =
        .ok ({ bal := b2, games := st.games.set gid g1 },
             [Event.balanceChange uid
                (st.bal uid + -(game.amount * (1 + Gateway.GAME_FEE / 100)))
                false, Event.gameUpdate gid]) := by
      simp only [Gateway.join, hg]
      rw [if_neg (by simp [hact]), if_neg (not_lt.mpr hbal), if_neg hself]
      rw [hcb]
      dsimp only
      rw [hpw]
      dsimp only
      simp
    refine ⟨_, _, hjoin, fun _ => ?_⟩
    obtain ⟨hcredc, hcredo⟩ := hcred (by simpa [hg1] using hself)
    have hcredo2 : b2 uid = b1 uid + game.amount * (1 + Gateway.GAME_FEE / 100) := by
      simpa [hg1] using hcredo
    have hcredc2 : b2 game.creator =
        b1 game.creator + game.amount * (1 + Gateway.GAME_FEE / 100) := by
      simpa [hg1] using hcredc
    refine ⟨?_, ?_, ?_⟩
    · show b2 uid = st.bal uid
      rw [hcredo2]
      simp [hb1]
    · show b2 game.creator =
        st.bal game.creator + game.amount * (1 + Gateway.GAME_FEE / 100)
      rw [hcredc2]
      simp [hb1, Ne.symm hself]
    · intro u hu1 hu2
      show b2 u = st.bal u
      have h1 : b2 u = b1 u :=
        hframe u (by simpa [hg1] using hu2) (by simpa [hg1] using hu1)
      rw [h1]
      simp [hb1, hu1]
  · obtain ⟨w, b2, hpw, -, -, -⟩ :=
      gateway_pickWinner_decisive b1 g1 move rfl heq ha hc ho
    have hjoin : Gateway.join st gid uid move now =
        .ok ({ bal := b2, games := st.games.set gid { g1 with winner := some w } },
             [Event.balanceChange uid
                (st.bal uid + -(game.amount * (1 + Gateway.GAME_FEE / 100)))
                false, Event.gameUpdate gid]) := by
      simp only [Gateway.join, hg]
      rw [if_neg (by simp [hact]), if_neg (not_lt.mpr hbal), if_neg hself]
      rw [hcb]
      dsimp only
      rw [hpw]
      dsimp only
      simp
    exact ⟨_, _, hjoin, fun h => absurd h heq⟩

/-- The code's winning-choice selection (sorted pair, wraparound on
`[0, 2]`) agrees with the spec's description (pair {0,2} won by the mover
of 0, any other unequal pair by the mover of the higher ordinal). -/
theorem winningChoice_cases (cm om c o : Nat) (hcm : cm < 3) (hom : om < 3)
    (hne : cm ≠ om) :
    (if cm = (if min cm om = 0 ∧ max cm om = 2 then 0 else max cm om)
     then c else o) =
    (if (cm = 0 ∧ om = 2) ∨ (cm = 2 ∧ om = 0)
     then (if cm = 0 then c else o)
     else (if om < cm then c else o)) := by
  interval_cases cm <;> interval_cases om <;> simp_all

/-! ## Claim theorems -/

/-- C1: for every pair of moves in {0,1,2} the settlement logic
(`pickWinner` of the transactional variant, which the spec adopts as
authoritative) selects exactly one winner by the cyclic beats-relation:
the pair {0,2} is won by the mover of 0 (wraparound), every other unequal
pair by the mover of the higher ordinal, and equal moves yield a tie with
no winner recorded. -/
theorem pickWinner_cyclic_beats_relation
    (bal : Nat → ℚ) (g : Game) (om : Nat)
    (hom : g.opponentMove = some om)
    (hcm : g.creatorMove < 3) (homlt : om < 3)
    (hwin : g.winner = none)
    (ha : 0 ≤ g.amount) (hc : 0 ≤ bal g.creator)
    (ho : 0 ≤ bal (g.opponent.getD g.creator)) :
    ∃ r : (Nat → ℚ) × Game × List Event,
      Gateway.pickWinner bal g = .ok r ∧
      (g.creatorMove = om → r.2.1.winner = none) ∧
      (g.creatorMove ≠ om →
        r.2.1.winner = some
          (if (g.creatorMove = 0 ∧ om = 2) ∨ (g.creatorMove = 2 ∧ om = 0)
           then (if g.creatorMove = 0 then g.creator
                 else g.opponent.getD g.creator)
           else (if om < g.creatorMove then g.creator
                 else g.opponent.getD g.creator))) := by
  by_cases heq : g.creatorMove = om
  · obtain ⟨b2, hpw, -, -⟩ := gateway_pickWinner_tie bal g om hom heq ha hc ho
    exact ⟨_, hpw, fun _ => hwin, fun hne => absurd heq hne⟩
  · obtain ⟨w, b1, hpw, hwdef, -, -⟩ :=
      gateway_pickWinner_decisive bal g om hom heq ha hc ho
    refine ⟨_, hpw, fun h => absurd h heq, fun _ => ?_⟩
    show some w = _
    rw [hwdef, winningChoice_cases g.creatorMove om _ _ hcm homlt heq]

/-- Witness for C1 at the wraparound pair (0, 2): the creator wins. -/
theorem pickWinner_cyclic_beats_relation_witness :
    ∃ r : (Nat → ℚ) × Game × List Event,
      Gateway.pickWinner (fun _ => (0:ℚ)) exGameWrap = .ok r ∧
      (exGameWrap.creatorMove = 2 → r.2.1.winner = none) ∧
      (exGameWrap.creatorMove ≠ 2 →
        r.2.1.winner = some
          (if (exGameWrap.creatorMove = 0 ∧ (2:Nat) = 2) ∨
              (exGameWrap.creatorMove = 2 ∧ (2:Nat) = 0)
           then (if exGameWrap.creatorMove = 0 then exGameWrap.creator
                 else exGameWrap.opponent.getD exGameWrap.creator)
           else (if 2 < exGameWrap.creatorMove then exGameWrap.creator
                 else exGameWrap.opponent.getD exGameWrap.creator))) :=
  pickWinner_cyclic_beats_relation (fun _ => 0) exGameWrap 2 rfl
    (by norm_num [exGameWrap]) (by norm_num) rfl (by norm_num [exGameWrap])
    le_rfl le_rfl

/-- C2 fails on the transactional variant: with stake 100 and fee 4% the
winner of a decisive game is credited 200, not the claimed
round(100 × 2 × 0.96) = 192. -/
theorem winner_payout_counterexample :
    resultBal (Gateway.pickWinner (fun _ => 0) exGameWrap) 0 = 200 ∧
    ((GameSvc.jsRound ((100:ℚ) * 2 * ((100 - 4) / 100)) : ℤ) : ℚ) = 192 ∧
    (200 : ℚ) ≠ 192 := by
  refine ⟨by norm_num [resultBal, Gateway.pickWinner, Gateway.GAME_FEE,
    changeBalance, exGameWrap], ?_, by norm_num⟩
  norm_num [GameSvc.jsRound]

/-- C2 (amended): in the transactional settlement variant the winner of a
game with unequal moves is credited exactly amount × 2 — the full pot, the
platform fee being retained only through the two amount × (1 + fee) entry
debits — and the loser receives no further credit. -/
theorem winner_payout_amount_times_two
    (bal : Nat → ℚ) (g : Game) (om : Nat)
    (hom : g.opponentMove = some om) (hne : g.creatorMove ≠ om)
    (ha : 0 ≤ g.amount) (hc : 0 ≤ bal g.creator)
    (ho : 0 ≤ bal (g.opponent.getD g.creator)) :
    ∃ w : Nat, ∃ r : (Nat → ℚ) × Game × List Event,
      Gateway.pickWinner bal g = .ok r ∧
      r.2.1.winner = some w ∧
      r.1 w = bal w + g.amount * 2 ∧
      (∀ u, u ≠ w → r.1 u = bal u) := by
  obtain ⟨w, b1, hpw, -, hbw, hothers⟩ :=
    gateway_pickWinner_decisive bal g om hom hne ha hc ho
  exact ⟨w, _, hpw, rfl, hbw, hothers⟩

/-- Witness for the amended C2 at stake 100: the winner's balance rises by
exactly 200. -/
theorem winner_payout_amount_times_two_witness :
    ∃ w : Nat, ∃ r : (Nat → ℚ) × Game × List Event,
      Gateway.pickWinner (fun _ => (0:ℚ)) exGameWrap = .ok r ∧
      r.2.1.winner = some w ∧
      r.1 w = (fun _ => (0:ℚ)) w + exGameWrap.amount * 2 ∧
      (∀ u, u ≠ w → r.1 u = (fun _ => (0:ℚ)) u) :=
  winner_payout_amount_times_two (fun _ => 0) exGameWrap 2 rfl
    (by norm_num [exGameWrap]) (by norm_num [exGameWrap]) le_rfl le_rfl

/-- C8: the two settlement implementations are not equivalent.  On the
pair (0, 2) the transactional variant awards the creator (wraparound) but
the non-transactional variant awards the opponent, because its wraparound
check uses JavaScript value equality on array literals, which is always
false; and on a tie the per-player refunds differ (104 versus 100 at stake
100, i.e. the variants disagree on whether entry fees are returned). -/
theorem settlement_variants_divergent :
    GameSvc.jsStrictEqArray [0, 2] [0, 2] = false ∧
    resultWinner (Gateway.pickWinner (fun _ => 0) exGameWrap) = some 0 ∧
    resultWinner (GameSvc.pickWinner (fun _ => 0) exGameWrap 0) = some 1 ∧
    some (0:Nat) ≠ some 1 ∧
    resultBal (Gateway.pickWinner (fun _ => 0) exGameTie) 0 = 104 ∧
    resultBal (GameSvc.pickWinner (fun _ => 0) exGameTie 0) 0 = 100 ∧
    (104:ℚ) ≠ 100 := by
  refine ⟨rfl, ?_, ?_, by simp, ?_, ?_, by norm_num⟩
  · norm_num [resultWinner, Gateway.pickWinner, Gateway.GAME_FEE,
      changeBalance, exGameWrap]
  · norm_num [resultWinner, GameSvc.pickWinner, GameSvc.jsStrictEqArray,
      GameSvc.jsRound, changeBalance, exGameWrap]
  · norm_num [resultBal, Gateway.pickWinner, Gateway.GAME_FEE,
      changeBalance, exGameTie]
  · norm_num [resultBal, GameSvc.pickWinner, GameSvc.jsStrictEqArray,
      changeBalance, exGameTie]

/-- C9: a reconciliation pass fetches exactly the transactions with status
pending, logs their count, and invokes the batch confirmation step exactly
once with the full pending batch when it is non-empty; when no pending
transaction exists it performs no confirmation call (and, invoking no
collaborator, mutates nothing). -/
theorem checkDeposits_batches_pending (txs : List Txn) :
    (checkDeposits txs).1 =
      (txs.filter (fun t => t.status = "pending")).length ∧
    (getUnconfirmed txs ≠ [] →
      (checkDeposits txs).2 = [txs.filter (fun t => t.status = "pending")]) ∧
    (getUnconfirmed txs = [] → (checkDeposits txs).2 = []) := by
  refine ⟨rfl, ?_, ?_⟩
  · intro h
    show (if (getUnconfirmed txs).length > 0
          then [getUnconfirmed txs] else []) = _
    rw [if_pos (List.length_pos.mpr h)]
    rfl
  · intro h
    show (if (getUnconfirmed txs).length > 0
          then [getUnconfirmed txs] else []) = _
    rw [h]
    simp

/-- Witness for C9: one pending and one confirmed transaction; the count
is 1 and `confirmMany` is invoked once with the pending batch. -/
theorem checkDeposits_batches_pending_witness :
    (checkDeposits [⟨1, "s", "deposit", "pending"⟩,
                    ⟨2, "t", "deposit", "confirmed"⟩]).1 = 1 ∧
    (checkDeposits [⟨1, "s", "deposit", "pending"⟩,
                    ⟨2, "t", "deposit", "confirmed"⟩]).2 =
      [[⟨1, "s", "deposit", "pending"⟩]] := by
  have h := checkDeposits_batches_pending
    [⟨1, "s", "deposit", "pending"⟩, ⟨2, "t", "deposit", "confirmed"⟩]
  refine ⟨?_, ?_⟩
  · rw [h.1]
    decide
  · rw [h.2.1 (by decide)]
    decide

/-- C10: every balance credit applied during transactional settlement runs
with notifications disabled: a successful `pickWinner` emits no event at
all, and a successful `join` emits a game-updated event while the only
balance-changed event in its trace is the joiner's entry debit — none is
emitted for the credited users. -/
theorem settlement_credits_silent
    (st : St) (gid uid move now : Nat) (st2 : St) (evs : List Event)
    (h : Gateway.join st gid uid move now = .ok (st2, evs)) :
    Event.gameUpdate gid ∈ evs ∧
    (∃ q : ℚ, evs.filter Event.isBalanceChange =
      [Event.balanceChange uid q false]) ∧
    (∀ (bal : Nat → ℚ) (g : Game) (r : (Nat → ℚ) × Game × List Event),
      Gateway.pickWinner bal g = .ok r → r.2.2 = []) := by
  obtain ⟨game, -, -, -, -, r1, r2, hcb, hpw, -, hevs⟩ :=
    gateway_join_ok_elim st gid uid move now st2 evs h
  obtain ⟨-, he1⟩ := changeBalance_ok_elim _ _ _ _ _ _ hcb
  have he2 := gateway_pickWinner_ok_events _ _ _ hpw
  subst hevs
  refine ⟨by simp, ?_, fun b g r hr => gateway_pickWinner_ok_events b g r hr⟩
  refine ⟨st.bal uid + -(game.amount * (1 + Gateway.GAME_FEE / 100)), ?_⟩
  rw [he1, he2]
  simp [Event.isBalanceChange]

/-- Witness for C10: a concrete successful join of the example state. -/
theorem settlement_credits_silent_witness :
    ∃ st2 evs, Gateway.join exSt 0 1 2 7 = .ok (st2, evs) ∧
      (Event.gameUpdate 0 ∈ evs ∧
       (∃ q : ℚ, evs.filter Event.isBalanceChange =
         [Event.balanceChange 1 q false]) ∧
       (∀ (bal : Nat → ℚ) (g : Game) (r : (Nat → ℚ) × Game × List Event),
         Gateway.pickWinner bal g = .ok r → r.2.2 = [])) := by
  obtain ⟨st2, evs, hjoin, -⟩ :=
    gateway_join_ok_intro exSt 0 1 2 7 exActiveGame rfl rfl
      (by norm_num [exSt, exActiveGame, Gateway.GAME_FEE])
      (by simp [exActiveGame]) (by norm_num [exActiveGame])
      (by norm_num [exSt, exActiveGame])
  exact ⟨st2, evs, hjoin, settlement_credits_silent exSt 0 1 2 7 st2 evs hjoin⟩

/-- C5: transactional `create` fails with `insufficientBalance` whenever
the caller's balance is below amount × (1 + fee); it fails whenever the
caller has 5 or more active games, reporting `activeGameLimitExceeded`
once the balance check passes; every failure is an error value carrying no
state, so no balance delta is applied and no game is persisted; on success
the caller is debited exactly amount × (1 + fee) and a new game with
status active is appended. -/
theorem create_admission_control (st : St) (uid : Nat) (amount : ℚ)
    (move : Nat) :
    (st.bal uid < amount * (1 + Gateway.GAME_FEE / 100) →
      Gateway.create st uid amount move = .error .insufficientBalance) ∧
    (5 ≤ Gateway.userActiveCount st uid →
      ∃ e, Gateway.create st uid amount move = .error e) ∧
    (¬ st.bal uid < amount * (1 + Gateway.GAME_FEE / 100) →
      5 ≤ Gateway.userActiveCount st uid →
      Gateway.create st uid amount move = .error .activeGameLimitExceeded) ∧
    (¬ st.bal uid < amount * (1 + Gateway.GAME_FEE / 100) →
      Gateway.userActiveCount st uid < 5 →
      ∃ st2 evs, Gateway.create st uid amount move = .ok (st2, evs) ∧
        st2.bal uid = st.bal uid - amount * (1 + Gateway.GAME_FEE / 100) ∧
        (∀ u, u ≠ uid → st2.bal u = st.bal u) ∧
        st2.games = st.games ++
          [{ amount := amount, fee := Gateway.GAME_FEE, creator := uid,
             creatorMove := move, opponent := none, opponentMove := none,
             status := GStatus.active, winner := none, endedAt := none }]) := by
  refine ⟨?_, ?_, ?_, ?_⟩
  · intro h
    simp [Gateway.create, h]
  · intro h
    by_cases hb : st.bal uid < amount * (1 + Gateway.GAME_FEE / 100)
    · exact ⟨.insufficientBalance, by simp [Gateway.create, hb]⟩
    · exact ⟨.activeGameLimitExceeded, by simp [Gateway.create, hb, h]⟩
  · intro hb h
    simp [Gateway.create, hb, h]
  · intro hb hcount
    have hcreate :=
      gateway_create_ok_intro st uid amount move (not_lt.mp hb) hcount
    refine ⟨_, _, hcreate, ?_, ?_, rfl⟩
    · simp [sub_eq_add_neg]
    · intro u hu
      simp [hu]

/-- Witness for C5: user 0 (balance 104, one active game) successfully
creates a stake-50 game and is debited exactly 52. -/
theorem create_admission_control_witness :
    ∃ st2 evs, Gateway.create exSt 0 50 1 = .ok (st2, evs) ∧
      st2.bal 0 = exSt.bal 0 - 50 * (1 + Gateway.GAME_FEE / 100) ∧
      (∀ u, u ≠ 0 → st2.bal u = exSt.bal u) ∧
      st2.games = exSt.games ++
        [{ amount := 50, fee := Gateway.GAME_FEE, creator := 0,
           creatorMove := 1, opponent := none, opponentMove := none,
           status := GStatus.active, winner := none, endedAt := none }] :=
  (create_admission_control exSt 0 50 1).2.2.2
    (by norm_num [exSt, Gateway.GAME_FEE])
    (by norm_num [Gateway.userActiveCount, exSt, exActiveGame])

/-- C6: transactional `join` fails with `gameNotFound` when the game id is
unknown, `gameNotActive` when the game is not active, then
`insufficientBalance` when the joiner cannot pay amount × (1 + fee), then
`selfJoinForbidden` when the joiner created the game; every failure is an
error value carrying no state, so no debit is applied and the game is
unchanged. -/
theorem join_validation (st : St) (gid uid move now : Nat) :
    (st.games[gid]? = none →
      Gateway.join st gid uid move now = .error .gameNotFound) ∧
    (∀ game, st.games[gid]? = some game → game.status ≠ GStatus.active →
      Gateway.join st gid uid move now = .error .gameNotActive) ∧
    (∀ game, st.games[gid]? = some game → game.status = GStatus.active →
      st.bal uid < game.amount * (1 + Gateway.GAME_FEE / 100) →
      Gateway.join st gid uid move now = .error .insufficientBalance) ∧
    (∀ game, st.games[gid]? = some game → game.status = GStatus.active →
      ¬ st.bal uid < game.amount * (1 + Gateway.GAME_FEE / 100) →
      uid = game.creator →
      Gateway.join st gid uid move now = .error .selfJoinForbidden) := by
  refine ⟨?_, ?_, ?_, ?_⟩
  · intro h
    simp [Gateway.join, h]
  · intro game hg hs
    simp [Gateway.join, hg, hs]
  · intro game hg hs hb
    simp [Gateway.join, hg, hs, hb]
  · intro game hg hs hb hself
    subst hself
    simp [Gateway.join, hg, hs, hb]

/-- Witness for C6: joining a non-existent game id fails with
`gameNotFound`, and the creator joining their own game fails with
`selfJoinForbidden`. -/
theorem join_validation_witness :
    Gateway.join exSt 5 1 0 7 = .error .gameNotFound ∧
    Gateway.join exSt 0 0 1 7 = .error .selfJoinForbidden :=
  ⟨(join_validation exSt 5 1 0 7).1 rfl,
   (join_validation exSt 0 0 1 7).2.2.2 exActiveGame rfl rfl
     (by norm_num [exSt, exActiveGame, Gateway.GAME_FEE]) rfl⟩

/-- C7: transactional `cancel` fails with `gameNotFound` for an unknown
id, `notOwner` when the caller is not the creator, `gameNotActive` when
the game is not active — each failure an error value carrying no state —
and on success credits the creator back exactly amount × (1 + fee) (the
original debit) and sets the game's status to cancelled. -/
theorem cancel_refund (st : St) (gid uid : Nat) :
    (st.games[gid]? = none →
      Gateway.cancel st gid uid = .error .gameNotFound) ∧
    (∀ game, st.games[gid]? = some game → uid ≠ game.creator →
      Gateway.cancel st gid uid = .error .notOwner) ∧
    (∀ game, st.games[gid]? = some game → uid = game.creator →
      game.status ≠ GStatus.active →
      Gateway.cancel st gid uid = .error .gameNotActive) ∧
    (∀ game, st.games[gid]? = some game → uid = game.creator →
      game.status = GStatus.active →
      0 ≤ st.bal uid + game.amount * (1 + Gateway.GAME_FEE / 100) →
      ∃ st2 evs, Gateway.cancel st gid uid = .ok (st2, evs) ∧
        st2.bal uid = st.bal uid + game.amount * (1 + Gateway.GAME_FEE / 100) ∧
        (∀ u, u ≠ uid → st2.bal u = st.bal u) ∧
        st2.games = st.games.set gid
          { game with status := GStatus.cancelled }) := by
  refine ⟨?_, ?_, ?_, ?_⟩
  · intro h
    simp [Gateway.cancel, h]
  · intro game hg hown
    simp [Gateway.cancel, hg, hown]
  · intro game hg hown hs
    simp [Gateway.cancel, hg, hown, hs]
  · intro game hg hown hs hnonneg
    have hcb := changeBalance_ok_of_nonneg st.bal uid
      (game.amount * (1 + Gateway.GAME_FEE / 100)) true false hnonneg
    have hcancel : Gateway.cancel st gid uid = .ok
        ({ bal := fun u => if u = uid
             then st.bal uid + game.amount * (1 + Gateway.GAME_FEE / 100)
             else st.bal u,
           games := st.games.set gid
             { game with status := GStatus.cancelled } },
         [Event.balanceChange uid
            (st.bal uid + game.amount * (1 + Gateway.GAME_FEE / 100)) false,
          Event.gameUpdate gid]) := by
      simp only [Gateway.cancel, hg]
      rw [if_neg (by simp [hown]), if_neg (by simp [hs])]
      rw [hcb]
      simp
    refine ⟨_, _, hcancel, ?_, ?_, rfl⟩
    · simp
    · intro u hu
      simp [hu]

/-- C3: a game created by u1 and joined by u2 with the same move settles
as a tie in which each party is credited back exactly
amount × (1 + fee) — exactly what each paid in at create/join time — so
the net balance delta over the whole game is zero for both parties and no
fee is retained. -/
theorem tie_refunds_net_zero
    (st : St) (u1 u2 m now : Nat) (amount : ℚ)
    (hne : u1 ≠ u2) (ha : 0 ≤ amount)
    (h1 : amount * (1 + Gateway.GAME_FEE / 100) ≤ st.bal u1)
    (h2 : amount * (1 + Gateway.GAME_FEE / 100) ≤ st.bal u2)
    (hcount : Gateway.userActiveCount st u1 < 5) :
    ∃ st1 evs1 st2 evs2,
      Gateway.create st u1 amount m = .ok (st1, evs1) ∧
      Gateway.join st1 st.games.length u2 m now = .ok (st2, evs2) ∧
      st1.bal u1 = st.bal u1 - amount * (1 + Gateway.GAME_FEE / 100) ∧
      st2.bal u1 = st1.bal u1 + amount * (1 + Gateway.GAME_FEE / 100) ∧
      st2.bal u1 = st.bal u1 ∧
      st2.bal u2 = st.bal u2 ∧
      (∀ u, u ≠ u1 → u ≠ u2 → st2.bal u = st.bal u) := by
  have hcreate := gateway_create_ok_intro st u1 amount m h1 hcount
  set b1 : Nat → ℚ :=
    fun u => if u = u1
             then st.bal u1 + -(amount * (1 + Gateway.GAME_FEE / 100))
             else st.bal u with hb1
  set newG : Game :=
    { amount := amount, fee := Gateway.GAME_FEE, creator := u1,
      creatorMove := m, opponent := none, opponentMove := none,
      status := GStatus.active, winner := none, endedAt := none } with hnewG
  set st1 : St := { bal := b1, games := st.games ++ [newG] } with hst1
  have hb1u1 : b1 u1 = st.bal u1 - amount * (1 + Gateway.GAME_FEE / 100) := by
    simp [hb1, sub_eq_add_neg]
  have hb1u2 : b1 u2 = st.bal u2 := by
    simp [hb1, Ne.symm hne]
  obtain ⟨st2, evs2, hjoin, htie⟩ :=
    gateway_join_ok_intro st1 st.games.length u2 m now newG
      (by simp [hst1, List.getElem?_concat_length])
      rfl
      (by show newG.amount * _ ≤ b1 u2
          rw [hb1u2]
          exact h2)
      (by simpa [hnewG] using hne.symm)
      ha
      (by show (0:ℚ) ≤ b1 newG.creator
          simp only [hnewG]
          rw [hb1u1]
          linarith)
  obtain ⟨ho2, hc2, hframe⟩ := htie rfl
  refine ⟨st1, _, st2, evs2, hcreate, hjoin, hb1u1, ?_, ?_, ?_, ?_⟩
  · show st2.bal u1 = b1 u1 + amount * (1 + Gateway.GAME_FEE / 100)
    simpa [hnewG, hst1] using hc2
  · show st2.bal u1 = st.bal u1
    have := hc2
    simp only [hnewG, hst1] at this
    rw [this, hb1u1]
    ring
  · show st2.bal u2 = st.bal u2
    have := ho2
    simp only [hst1] at this
    rw [this, hb1u2]
  · intro u hu1 hu2
    have := hframe u hu2 (by simpa [hnewG] using hu1)
    simp only [hst1] at this
    rw [this, hb1]
    simp [hu1]

/-- Witness for C3: stake 100, fee 4%, both parties start at 104 and end
at 104 after a tied game. -/
theorem tie_refunds_net_zero_witness :
    ∃ st1 evs1 st2 evs2,
      Gateway.create exSt 0 100 1 = .ok (st1, evs1) ∧
      Gateway.join st1 exSt.games.length 1 1 7 = .ok (st2, evs2) ∧
      st1.bal 0 = exSt.bal 0 - 100 * (1 + Gateway.GAME_FEE / 100) ∧
      st2.bal 0 = st1.bal 0 + 100 * (1 + Gateway.GAME_FEE / 100) ∧
      st2.bal 0 = exSt.bal 0 ∧
      st2.bal 1 = exSt.bal 1 ∧
      (∀ u, u ≠ 0 → u ≠ 1 → st2.bal u = exSt.bal u) :=
  tie_refunds_net_zero exSt 0 1 1 7 100 (by norm_num) (by norm_num)
    (by norm_num [exSt, Gateway.GAME_FEE])
    (by norm_num [exSt, Gateway.GAME_FEE])
    (by norm_num [Gateway.userActiveCount, exSt, exActiveGame])

/-- C4: under the transactional variant, every stored game's status stays
in {active, ended, cancelled} across create/join/cancel; transitions are
monotonic — an ended or cancelled game is never changed again (create
leaves existing games untouched verbatim); and join and cancel on a game
whose status is not active are rejected with an error value that carries
no state, so a second settlement of the same game id observes the
non-active status, fails, and applies no balance delta. -/
theorem status_lifecycle (st : St) (gid uid move now : Nat) (amount : ℚ) :
    (∀ (st2 : St) (evs : List Event),
      Gateway.create st uid amount move = .ok (st2, evs) →
      statusInv st → statusInv st2) ∧
    (∀ (st2 : St) (evs : List Event),
      Gateway.join st gid uid move now = .ok (st2, evs) →
      statusInv st → statusInv st2) ∧
    (∀ (st2 : St) (evs : List Event),
      Gateway.cancel st gid uid = .ok (st2, evs) →
      statusInv st → statusInv st2) ∧
    (∀ (st2 : St) (evs : List Event),
      Gateway.create st uid amount move = .ok (st2, evs) →
      ∀ (i : Nat) (g g2 : Game),
        st.games[i]? = some g → st2.games[i]? = some g2 → g2 = g) ∧
    (∀ (st2 : St) (evs : List Event),
      Gateway.join st gid uid move now = .ok (st2, evs) →
      ∀ (i : Nat) (g g2 : Game),
        st.games[i]? = some g → st2.games[i]? = some g2 →
        (g.status = GStatus.ended → g2.status = GStatus.ended) ∧
        (g.status = GStatus.cancelled → g2.status = GStatus.cancelled)) ∧
    (∀ (st2 : St) (evs : List Event),
      Gateway.cancel st gid uid = .ok (st2, evs) →
      ∀ (i : Nat) (g g2 : Game),
        st.games[i]? = some g → st2.games[i]? = some g2 →
        (g.status = GStatus.ended → g2.status = GStatus.ended) ∧
        (g.status = GStatus.cancelled → g2.status = GStatus.cancelled)) ∧
    (∀ game, st.games[gid]? = some game → game.status ≠ GStatus.active →
      (∃ e, Gateway.join st gid uid move now = .error e) ∧
      (∃ e2, Gateway.cancel st gid uid = .error e2)) := by
  refine ⟨?_, ?_, ?_, ?_, ?_, ?_, ?_⟩
  · intro st2 evs h hinv
    obtain ⟨-, -, r1, -, hst2, -⟩ :=
      gateway_create_ok_elim st uid amount move st2 evs h
    subst hst2
    intro g hg
    rcases List.mem_append.mp hg with hmem | hmem
    · exact hinv g hmem
    · left
      simp only [List.mem_singleton] at hmem
      rw [hmem]
  · intro st2 evs h hinv
    obtain ⟨game, hgame, hact, -, -, r1, r2, -, hpw, hst2, -⟩ :=
      gateway_join_ok_elim st gid uid move now st2 evs h
    have hstat := gateway_pickWinner_ok_status _ _ _ hpw
    subst hst2
    intro g hg
    rcases List.mem_or_eq_of_mem_set hg with hmem | hmem
    · exact hinv g hmem
    · right; left
      rw [hmem, hstat]
  · intro st2 evs h hinv
    obtain ⟨game, hgame, -, -, r1, -, hst2, -⟩ :=
      gateway_cancel_ok_elim st gid uid st2 evs h
    subst hst2
    intro g hg
    rcases List.mem_or_eq_of_mem_set hg with hmem | hmem
    · exact hinv g hmem
    · right; right
      rw [hmem]
  · intro st2 evs h i g g2 hg hg2
    obtain ⟨-, -, r1, -, hst2, -⟩ :=
      gateway_create_ok_elim st uid amount move st2 evs h
    subst hst2
    obtain ⟨hi, -⟩ := List.getElem?_eq_some.mp hg
    dsimp only at hg2
    rw [List.getElem?_append_left hi, hg] at hg2
    injection hg2 with hgg
    exact hgg.symm
  · intro st2 evs h i g g2 hg hg2
    obtain ⟨game, hgame, hact, -, -, r1, r2, -, hpw, hst2, -⟩ :=
      gateway_join_ok_elim st gid uid move now st2 evs h
    subst hst2
    dsimp only at hg2
    by_cases hi : gid = i
    · subst hi
      rw [hgame] at hg
      have hgg : g = game := by
        injection hg with hx
        exact hx.symm
      constructor <;> intro hcontra <;>
        rw [hgg, hact] at hcontra <;> exact absurd hcontra (by decide)
    · rw [List.getElem?_set_ne hi, hg] at hg2
      injection hg2 with hgg
      rw [← hgg]
      exact ⟨id, id⟩
  · intro st2 evs h i g g2 hg hg2
    obtain ⟨game, hgame, -, hact, r1, -, hst2, -⟩ :=
      gateway_cancel_ok_elim st gid uid st2 evs h
    subst hst2
    dsimp only at hg2
    by_cases hi : gid = i
    · subst hi
      rw [hgame] at hg
      have hgg : g = game := by
        injection hg with hx
        exact hx.symm
      constructor <;> intro hcontra <;>
        rw [hgg, hact] at hcontra <;> exact absurd hcontra (by decide)
    · rw [List.getElem?_set_ne hi, hg] at hg2
      injection hg2 with hgg
      rw [← hgg]
      exact ⟨id, id⟩
  · intro game hgame hnact
    constructor
    · exact ⟨.gameNotActive, by simp [Gateway.join, hgame, hnact]⟩
    · by_cases huid : uid = game.creator
      · exact ⟨.gameNotActive, by simp [Gateway.cancel, hgame, huid, hnact]⟩
      · exact ⟨.notOwner, by simp [Gateway.cancel, hgame, huid]⟩

/-- Witness for C4: on a state holding only an ended game, both join and
cancel are rejected. -/
theorem status_lifecycle_witness :
    (∃ e, Gateway.join exStEnded 0 1 1 7 = .error e) ∧
    (∃ e2, Gateway.cancel exStEnded 0 1 = .error e2) :=
  (status_lifecycle exStEnded 0 1 1 7 100).2.2.2.2.2.2 exEndedGame rfl
    (by decide)

/-- Witness for C7: user 0 cancels the example active game and is
refunded 104. -/
theorem cancel_refund_witness :
    ∃ st2 evs, Gateway.cancel exSt 0 0 = .ok (st2, evs) ∧
      st2.bal 0 = exSt.bal 0 + exActiveGame.amount * (1 + Gateway.GAME_FEE / 100) ∧
      (∀ u, u ≠ 0 → st2.bal u = exSt.bal u) ∧
      st2.games = exSt.games.set 0
        { exActiveGame with status := GStatus.cancelled } :=
  (cancel_refund exSt 0 0).2.2.2 exActiveGame rfl rfl rfl
    (by norm_num [exSt, exActiveGame, Gateway.GAME_FEE])

end SolaSphere
